/-
  Verification of the backend in src/backend/app.py: a shallow embedding of
  the connection registry, broadcast coordinator, and the two scoring
  endpoints, together with theorems settling the specification claims.

  Modelling conventions:
  - Connection handles are opaque; we use Nat.
  - Float scores are modelled as exact rationals.
  - JSON values are modelled by the inductive JVal; a parsed JSON object is
    an association list of string keys to JVal.
  - An async send that raises is modelled by a predicate sendOk on the
    connection: sendOk c = false means send_json to c raises.
  - Exceptions are modelled by Option results: none stands for a raised,
    uncaught exception.
-/
import Mathlib

set_option maxRecDepth 10000

/-- Opaque connection handle (a WebSocket object in app.py). -/
abbrev Conn := Nat

/-- JSON values, the payloads carried over the real-time channel. -/
inductive JVal
  | null
  | bool (b : Bool)
  | num (q : ℚ)
  | str (s : String)
  | arr (elems : List JVal)
  | obj (fields : List (String × JVal))
  deriving Repr

/-- Python string slicing text[:n] takes the first n code points; Lean Char
is a unicode scalar value, so this is List.take on the character data. -/
def pySlice (text : String) (n : Nat) : String :=
  String.mk (text.data.take n)

/-- Python dict.get k on a parsed JSON object (association list). -/
def dictGet (d : List (String × JVal)) (k : String) : Option JVal :=
  List.lookup k d

/-- Result of one model pipeline call: the adapter returns a label and a
confidence score (app.py lines 65 and 84, the element at index 0). -/
structure ScoreResult where
  label : String
  score : ℚ
  deriving Repr

/-- Response body of POST /api/moderate (app.py lines 62 and 69 to 74). -/
inductive ModerateResponse
  | error (msg : String)
  | ok (is_toxic : Bool) (confidence : ℚ) (label : String) (text_length : Nat)
  deriving Repr

/-- Projection: the is_toxic field of a successful moderate response. -/
def ModerateResponse.isToxic? : ModerateResponse → Option Bool
  | .ok b _ _ _ => some b
  | .error _ => none

/-- Projection: the confidence field of a successful moderate response. -/
def ModerateResponse.confidence? : ModerateResponse → Option ℚ
  | .ok _ c _ _ => some c
  | .error _ => none

/-- Projection: the label field of a successful moderate response. -/
def ModerateResponse.label? : ModerateResponse → Option String
  | .ok _ _ l _ => some l
  | .error _ => none

/-- Projection: the text_length field of a successful moderate response. -/
def ModerateResponse.textLength? : ModerateResponse → Option Nat
  | .ok _ _ _ n => some n
  | .error _ => none

/-- Response body of POST /api/sentiment (app.py lines 82 and 93 to 97). -/
inductive SentimentResponse
  | error (msg : String)
  | ok (sentiment : String) (confidence : ℚ) (emoji : String)
  deriving Repr

/-- Projection: the emoji field of a successful sentiment response. -/
def SentimentResponse.emoji? : SentimentResponse → Option String
  | .ok _ _ e => some e
  | .error _ => none

/-- Floor of a rational, computed with integer floor division. -/
def ratFloor (q : ℚ) : ℤ :=
  q.num.fdiv (q.den : ℤ)

/-- Python round to the nearest integer: round half to even. -/
def pythonRound (q : ℚ) : ℤ :=
  let n := ratFloor q
  let frac := q - (n : ℚ)
  if frac < (1 : ℚ) / 2 then n
  else if (1 : ℚ) / 2 < frac then n + 1
  else if n % 2 = 0 then n else n + 1

/-- Python round(x, 3): round to three decimal places, half to even. -/
def round3 (q : ℚ) : ℚ :=
  ((pythonRound (q * 1000) : ℚ)) / 1000

/-- POST /api/moderate handler (app.py lines 56 to 74). The model pipeline
is a parameter. The text field is data.get with default empty string; an
empty string is falsy, so the handler returns the error body before any
model call. Otherwise the model is called on the 512-character slice, and
is_toxic compares the raw score against 0.7 while the confidence field is
the rounded score. The second component of the result records the list of
inputs the model was invoked on, so that no model call is provable. -/
def moderate_content (model : String → ScoreResult) (data_text : Option String) :
    ModerateResponse × List String :=
  let text := data_text.getD ""
  if text = "" then (.error "No text provided", [])
  else
    let result := model (pySlice text 512)
    (.ok (decide (result.score > (7 : ℚ) / 10)) (round3 result.score) result.label text.length,
     [pySlice text 512])

/-- The sentiment_emoji dict literal of app.py lines 87 to 91. -/
def sentiment_emoji : List (String × String) :=
  [("POSITIVE", "😊"), ("NEGATIVE", "😠"), ("NEUTRAL", "😐")]

/-- sentiment_emoji.get(label, neutral): dict lookup with default. -/
def emojiFor (label : String) : String :=
  (List.lookup label sentiment_emoji).getD "😐"

/-- POST /api/sentiment handler (app.py lines 76 to 97), modelled like
moderate_content, with the emoji lookup of line 96. -/
def analyze_sentiment (model : String → ScoreResult) (data_text : Option String) :
    SentimentResponse × List String :=
  let text := data_text.getD ""
  if text = "" then (.error "No text provided", [])
  else
    let result := model (pySlice text 512)
    (.ok result.label (round3 result.score) (emojiFor result.label),
     [pySlice text 512])

/-- ConnectionManager.connect (app.py lines 31 to 33): after the handshake
is accepted, the handle is appended at the end of active_connections. -/
def connect (registry : List Conn) (websocket : Conn) : List Conn :=
  registry ++ [websocket]

/-- Python list.remove: removes the first occurrence of the value; returns
none (a raised ValueError) when the value is absent. -/
def listRemove (xs : List Conn) (x : Conn) : Option (List Conn) :=
  match xs with
  | [] => none
  | y :: ys => if y = x then some ys else (listRemove ys x).map (fun r => y :: r)

/-- ConnectionManager.disconnect (app.py lines 35 to 36): a bare
list.remove on active_connections. -/
def disconnect (registry : List Conn) (websocket : Conn) : Option (List Conn) :=
  listRemove registry websocket

/-- The outbound broadcast frame built at app.py lines 126 to 131. -/
structure Outbound where
  type : JVal
  content : JVal
  timestamp : String
  user : JVal
  deriving Repr

/-- Construction of the outbound frame (app.py lines 126 to 131): type and
user default via dict.get with defaults, content defaults to null, and the
timestamp is the wall-clock reading taken at send preparation, passed here
as the parameter now. -/
def buildOutbound (message : List (String × JVal)) (now : String) : Outbound :=
  { type := (dictGet message "type").getD (JVal.str "message")
    content := (dictGet message "content").getD JVal.null
    timestamp := now
    user := (dictGet message "user").getD (JVal.str "Anonymous") }

/-- ConnectionManager.broadcast (app.py lines 38 to 40): a plain for loop
over active_connections sending the same message to each. A send that
raises (sendOk c = false) propagates out of the loop: the connections
after it receive nothing. The result is the list of performed deliveries
paired with the connection whose send raised, if any. The registry is not
modified by broadcast. -/
def broadcast (sendOk : Conn → Bool) (message : Outbound) :
    List Conn → List (Conn × Outbound) × Option Conn
  | [] => ([], none)
  | c :: rest =>
    if sendOk c then
      let r := broadcast sendOk message rest
      ((c, message) :: r.1, r.2)
    else
      ([], some c)

/-- One event observed by the receive loop of websocket_endpoint: either a
text frame arrives, or receive_text raises WebSocketDisconnect. -/
inductive RecvEvent
  | frame (raw : String)
  | disconnected

/-- Outcome of one iteration of the websocket_endpoint loop body. -/
structure StepOut where
  registry : List Conn
  delivered : List (Conn × Outbound)
  senderAlive : Bool
  coordinatorAlive : Bool
  deriving Repr

/-- One iteration of the websocket_endpoint receive loop (app.py lines 117
to 133), for a sender whose registry is in the given state. parse models
json.loads followed by the dict accesses: none when the frame is not
parseable as a JSON object, in which case the raised error is not caught
by the except clause (which catches only WebSocketDisconnect), so the
endpoint task dies: the loop ends without touching the registry and with
no delivery, while the server process and the other connections' tasks
keep running. On a parsed frame the outbound message is built once and
broadcast; a send failure likewise propagates and ends the loop without
any unregistration. On WebSocketDisconnect from receive_text the except
clause runs manager.disconnect on the sender. -/
def wsStep (parse : String → Option (List (String × JVal))) (sendOk : Conn → Bool)
    (now : String) (registry : List Conn) (sender : Conn) : RecvEvent → StepOut
  | .disconnected =>
    match disconnect registry sender with
    | some r => { registry := r, delivered := [], senderAlive := false, coordinatorAlive := true }
    | none => { registry := registry, delivered := [], senderAlive := false, coordinatorAlive := true }
  | .frame raw =>
    match parse raw with
    | none =>
      { registry := registry, delivered := [], senderAlive := false, coordinatorAlive := true }
    | some message =>
      let out := buildOutbound message now
      match broadcast sendOk out registry with
      | (ds, none) =>
        { registry := registry, delivered := ds, senderAlive := true, coordinatorAlive := true }
      | (ds, some _) =>
        { registry := registry, delivered := ds, senderAlive := false, coordinatorAlive := true }

/-- Concrete parse function for evaluations: exactly the frame "objframe"
parses, to the empty JSON object. -/
def jsonStub : String → Option (List (String × JVal)) :=
  fun s => if s = "objframe" then some [] else none

/-- Sample outbound message for concrete evaluations. -/
def sampleMsg : Outbound :=
  { type := JVal.str "message"
    content := JVal.null
    timestamp := "2026-10-12T00:00:00"
    user := JVal.str "Anonymous" }

/-- Sample model that flags everything with score 93 over 100. -/
def toxicStub : String → ScoreResult :=
  fun _ => { label := "toxic", score := (93 : ℚ) / 100 }

/-- Sample model whose output depends on the input text. -/
def lenModel : String → ScoreResult :=
  fun s => { label := s, score := (s.length : ℚ) }

/-- A 513-character text: 513 copies of the letter a. -/
def longA513 : String := String.mk (List.replicate 513 'a')

/-- A 513-character text agreeing with longA513 on the first 512
characters and differing at index 512. -/
def longB513 : String := String.mk (List.replicate 512 'a' ++ ['b'])

/-- A 600-character text, longer than the 512-character truncation. -/
def long600 : String := String.mk (List.replicate 600 'a')

/-- Folding connect from any accumulator appends the peers in order. -/
theorem connect_foldl (acc : List Conn) (l : List Conn) :
    List.foldl connect acc l = acc ++ l := by
  induction l generalizing acc with
  | nil => simp
  | cons c rest ih =>
    rw [List.foldl_cons, ih]
    simp [connect]

/-- Broadcast with no failing send delivers the same message to every
registered connection, in registry order. -/
theorem broadcast_all_ok (sendOk : Conn → Bool) (m : Outbound) :
    ∀ l : List Conn, (∀ c ∈ l, sendOk c = true) →
      broadcast sendOk m l = (l.map (fun c => (c, m)), none) := by
  intro l
  induction l with
  | nil => intro _; rfl
  | cons c rest ih =>
    intro hl
    have hc : sendOk c = true := hl c (by simp)
    have hr := ih (fun x hx => hl x (by simp [hx]))
    simp [broadcast, hc, hr]

/-- Removing an absent element raises (returns none). -/
theorem listRemove_not_mem (xs : List Conn) (w : Conn) (h : w ∉ xs) :
    listRemove xs w = none := by
  induction xs with
  | nil => rfl
  | cons y ys ih =>
    have hy : ¬(y = w) := fun e => h (by simp [e])
    have hys : w ∉ ys := fun hm => h (by simp [hm])
    simp [listRemove, hy, ih hys]

/-- Removing an element removes exactly its first occurrence. -/
theorem listRemove_append (w : Conn) (pre post : List Conn) (h : w ∉ pre) :
    listRemove (pre ++ w :: post) w = some (pre ++ post) := by
  induction pre with
  | nil => simp [listRemove]
  | cons p ps ih =>
    have hp : ¬(p = w) := fun e => h (by simp [e])
    have hps : w ∉ ps := fun hm => h (by simp [hm])
    simp [listRemove, hp, ih hps]

/-- Claim C4 (confirmed): with N registered connections and all sends
succeeding, one broadcast performs exactly N deliveries of the one
outbound message, in registry insertion order as built by connect
(oldest-connected first), and the sender, being registered, is among the
recipients. -/
theorem c4_broadcast_delivers_to_all (sendOk : Conn → Bool) (m : Outbound)
    (peers : List Conn) (h : ∀ c ∈ peers, sendOk c = true) :
    List.foldl connect [] peers = peers ∧
    broadcast sendOk m peers = (peers.map (fun c => (c, m)), none) ∧
    (broadcast sendOk m peers).1.length = peers.length ∧
    ∀ s ∈ peers, (s, m) ∈ (broadcast sendOk m peers).1 := by
  have hb := broadcast_all_ok sendOk m peers h
  refine ⟨by simpa using connect_foldl [] peers, hb, by simp [hb], ?_⟩
  intro s hs
  rw [hb]
  simp only [List.mem_map]
  exact ⟨s, hs, rfl⟩

/-- Concrete instance of claim C4: three connections, all sends succeed,
each receives the sample message in order. -/
theorem c4_witness :
    (∀ c ∈ [10, 11, 12], (fun _ => true : Conn → Bool) c = true) ∧
    broadcast (fun _ => true) sampleMsg [10, 11, 12] =
      ([(10, sampleMsg), (11, sampleMsg), (12, sampleMsg)], none) :=
  ⟨fun _ _ => rfl,
   (c4_broadcast_delivers_to_all (fun _ => true) sampleMsg [10, 11, 12]
      (fun _ _ => rfl)).2.1⟩

/-- Claim C5, counterexample: disconnect on an absent handle is not a
silent no-op; it raises ValueError (modelled as none), rather than
returning the registry unchanged. -/
theorem c5_counterexample :
    disconnect [2, 3] 1 = none ∧ disconnect [2, 3] 1 ≠ some [2, 3] := by
  constructor
  · rfl
  · intro hcon
    simp [disconnect, listRemove] at hcon

/-- Claim C5 as amended (proved): disconnect removes the first occurrence
of a present handle; on an absent handle it raises ValueError (none)
instead of being a silent no-op. -/
theorem c5_amended (registry : List Conn) (w : Conn) :
    (w ∉ registry → disconnect registry w = none) ∧
    (∀ pre post, registry = pre ++ w :: post → w ∉ pre →
      disconnect registry w = some (pre ++ post)) := by
  constructor
  · intro h
    exact listRemove_not_mem registry w h
  · intro pre post hreg hpre
    rw [hreg]
    exact listRemove_append w pre post hpre

/-- Concrete instance of amended claim C5: removing 1 from a registry
holding it at index 1 removes exactly that first occurrence. -/
theorem c5_witness :
    ([5, 1, 7, 1] : List Conn) = [5] ++ 1 :: [7, 1] ∧ (1 : Conn) ∉ ([5] : List Conn) ∧
    disconnect [5, 1, 7, 1] 1 = some [5, 7, 1] :=
  ⟨rfl, by decide, (c5_amended [5, 1, 7, 1] 1).2 [5] [7, 1] rfl (by decide)⟩

/-- Claim C1 (code bug): with registry 1, 2, 3 and the send to connection
2 raising, the broadcast loop aborts after delivering only to connection
1: connection 3 never receives the message, and after the step the
registry still contains the failed connection 2 (nothing is unregistered).
The send exception also ends the sending endpoint's loop. This contradicts
the claimed continue-and-unregister policy. -/
theorem c1_broadcast_aborts_on_failure :
    broadcast (fun c => decide (c ≠ 2)) sampleMsg [1, 2, 3] = ([(1, sampleMsg)], some 2) ∧
    (wsStep jsonStub (fun c => decide (c ≠ 2)) "2026-10-12T00:00:00" [1, 2, 3] 1
      (RecvEvent.frame "objframe")).registry = [1, 2, 3] ∧
    (wsStep jsonStub (fun c => decide (c ≠ 2)) "2026-10-12T00:00:00" [1, 2, 3] 1
      (RecvEvent.frame "objframe")).delivered =
      [(1, buildOutbound [] "2026-10-12T00:00:00")] ∧
    (wsStep jsonStub (fun c => decide (c ≠ 2)) "2026-10-12T00:00:00" [1, 2, 3] 1
      (RecvEvent.frame "objframe")).senderAlive = false := by
  refine ⟨?_, ?_, ?_, ?_⟩ <;> rfl

/-- Claim C3, counterexample: an unparseable frame ends the sender's
receive loop (the connection does not stay open), because the raised parse
error is not caught by the except clause. -/
theorem c3_counterexample :
    jsonStub "oops" = none ∧
    (wsStep jsonStub (fun _ => true) "2026-10-12T00:00:00" [1, 2] 1
      (RecvEvent.frame "oops")).senderAlive = false := by
  exact ⟨rfl, rfl⟩

/-- Claim C3 as amended (proved): on an unparseable frame nothing is
broadcast, the registry is untouched (so no other connection is affected)
and the server keeps running, but the uncaught parse error terminates the
sender's receive loop — closing that connection — and the dead handle is
not unregistered. -/
theorem c3_amended (parse : String → Option (List (String × JVal)))
    (sendOk : Conn → Bool) (now : String) (registry : List Conn) (sender : Conn)
    (raw : String) (h : parse raw = none) :
    (wsStep parse sendOk now registry sender (RecvEvent.frame raw)).registry = registry ∧
    (wsStep parse sendOk now registry sender (RecvEvent.frame raw)).delivered = [] ∧
    (wsStep parse sendOk now registry sender (RecvEvent.frame raw)).senderAlive = false ∧
    (wsStep parse sendOk now registry sender (RecvEvent.frame raw)).coordinatorAlive = true := by
  refine ⟨?_, ?_, ?_, ?_⟩ <;> simp [wsStep, h]

/-- Concrete instance of amended claim C3: a frame the stub parser
rejects leaves the two-connection registry unchanged. -/
theorem c3_witness :
    jsonStub "not-json" = none ∧
    (wsStep jsonStub (fun _ => true) "2026-10-12T00:00:00" [1, 2] 1
      (RecvEvent.frame "not-json")).registry = [1, 2] :=
  ⟨rfl, (c3_amended jsonStub (fun _ => true) "2026-10-12T00:00:00" [1, 2] 1
    "not-json" rfl).1⟩

/-- Claim C2 (confirmed): for non-empty text, is_toxic is exactly the
strict comparison of the raw, unrounded score against 0.7; a score of
exactly 0.7 yields is_toxic false; the confidence field carries the
rounded score, which plays no part in the comparison. -/
theorem c2_toxicity_threshold (model : String → ScoreResult) (t : String) (h : t ≠ "") :
    (moderate_content model (some t)).1.isToxic? =
      some (decide ((model (pySlice t 512)).score > (7 : ℚ) / 10)) ∧
    ((model (pySlice t 512)).score = (7 : ℚ) / 10 →
      (moderate_content model (some t)).1.isToxic? = some false) ∧
    (moderate_content model (some t)).1.confidence? =
      some (round3 (model (pySlice t 512)).score) := by
  refine ⟨?_, ?_, ?_⟩
  · simp [moderate_content, h, ModerateResponse.isToxic?]
  · intro hs
    simp [moderate_content, h, ModerateResponse.isToxic?, hs]
  · simp [moderate_content, h, ModerateResponse.confidence?]

/-- Concrete instance of claim C2 at a non-empty text. -/
theorem c2_witness :
    ("hate" : String) ≠ "" ∧
    (moderate_content toxicStub (some "hate")).1.isToxic? =
      some (decide ((toxicStub (pySlice "hate" 512)).score > (7 : ℚ) / 10)) :=
  ⟨by decide, (c2_toxicity_threshold toxicStub "hate" (by decide)).1⟩

/-- Claim C6 (confirmed): the model is invoked on exactly the
512-character slice of the input, so two non-empty texts agreeing on their
first 512 characters yield the same score-derived fields on /api/moderate
and the same /api/sentiment response. -/
theorem c6_truncation (model : String → ScoreResult) (t1 t2 : String)
    (h1 : t1 ≠ "") (h2 : t2 ≠ "") (hp : pySlice t1 512 = pySlice t2 512) :
    (moderate_content model (some t1)).2 = [pySlice t1 512] ∧
    (analyze_sentiment model (some t1)).2 = [pySlice t1 512] ∧
    (moderate_content model (some t1)).1.isToxic? =
      (moderate_content model (some t2)).1.isToxic? ∧
    (moderate_content model (some t1)).1.confidence? =
      (moderate_content model (some t2)).1.confidence? ∧
    (moderate_content model (some t1)).1.label? =
      (moderate_content model (some t2)).1.label? ∧
    (analyze_sentiment model (some t1)).1 = (analyze_sentiment model (some t2)).1 := by
  refine ⟨?_, ?_, ?_, ?_, ?_, ?_⟩ <;>
    simp [moderate_content, analyze_sentiment, h1, h2, hp,
      ModerateResponse.isToxic?, ModerateResponse.confidence?, ModerateResponse.label?]

/-- Concrete instance of claim C6: two 513-character texts differing only
at index 512 get the same toxicity verdict, even under a model whose
output depends on its input. -/
theorem c6_witness :
    longA513 ≠ "" ∧ longB513 ≠ "" ∧ pySlice longA513 512 = pySlice longB513 512 ∧
    (moderate_content lenModel (some longA513)).1.isToxic? =
      (moderate_content lenModel (some longB513)).1.isToxic? :=
  ⟨by decide, by decide, by decide,
   (c6_truncation lenModel longA513 longB513 (by decide) (by decide) (by decide)).2.2.1⟩

/-- Claim C7 (confirmed): the outbound frame carries the inbound type when
present and the string message when absent, the inbound content unchanged
and null when absent, the inbound user when present and Anonymous when
absent, and the server timestamp supplied at send preparation. -/
theorem c7_outbound_construction (message : List (String × JVal)) (now : String) :
    (buildOutbound message now).timestamp = now ∧
    (∀ v, dictGet message "type" = some v → (buildOutbound message now).type = v) ∧
    (dictGet message "type" = none → (buildOutbound message now).type = JVal.str "message") ∧
    (∀ v, dictGet message "content" = some v → (buildOutbound message now).content = v) ∧
    (dictGet message "content" = none → (buildOutbound message now).content = JVal.null) ∧
    (∀ v, dictGet message "user" = some v → (buildOutbound message now).user = v) ∧
    (dictGet message "user" = none → (buildOutbound message now).user = JVal.str "Anonymous") := by
  refine ⟨rfl, fun v hv => ?_, fun hn => ?_, fun v hv => ?_, fun hn => ?_,
    fun v hv => ?_, fun hn => ?_⟩ <;> simp_all [buildOutbound]

/-- Concrete instance of claim C7: a frame with a type field and no user
field broadcasts that type and defaults the user. -/
theorem c7_witness :
    dictGet [("type", JVal.str "chat")] "type" = some (JVal.str "chat") ∧
    (buildOutbound [("type", JVal.str "chat")] "2026-10-12T00:00:00").type = JVal.str "chat" :=
  ⟨rfl, (c7_outbound_construction [("type", JVal.str "chat")] "2026-10-12T00:00:00").2.1
    (JVal.str "chat") rfl⟩

/-- Claim C8 (confirmed): an absent or empty text field short-circuits
both endpoints to the error body, and the model-call trace is empty: the
model is never invoked. -/
theorem c8_empty_input (model : String → ScoreResult) (dt : Option String)
    (h : dt = none ∨ dt = some "") :
    moderate_content model dt = (ModerateResponse.error "No text provided", []) ∧
    analyze_sentiment model dt = (SentimentResponse.error "No text provided", []) := by
  rcases h with h | h <;> subst h <;> exact ⟨rfl, rfl⟩

/-- Concrete instance of claim C8 with the text field absent. -/
theorem c8_witness :
    ((none : Option String) = none ∨ (none : Option String) = some "") ∧
    moderate_content toxicStub none = (ModerateResponse.error "No text provided", []) :=
  ⟨Or.inl rfl, (c8_empty_input toxicStub none (Or.inl rfl)).1⟩

/-- Claim C9 (confirmed): the emoji mapping is total — every label maps to
one of the three emojis, the three known labels map as specified, any other
label degrades to the neutral emoji, and /api/sentiment uses exactly this
mapping on the model's label. -/
theorem c9_emoji_total (label : String) :
    (emojiFor label = "😊" ∨ emojiFor label = "😠" ∨ emojiFor label = "😐") ∧
    emojiFor "POSITIVE" = "😊" ∧ emojiFor "NEGATIVE" = "😠" ∧ emojiFor "NEUTRAL" = "😐" ∧
    (label ≠ "POSITIVE" → label ≠ "NEGATIVE" → label ≠ "NEUTRAL" → emojiFor label = "😐") ∧
    (∀ (model : String → ScoreResult) (t : String), t ≠ "" →
      (analyze_sentiment model (some t)).1.emoji? =
        some (emojiFor (model (pySlice t 512)).label)) := by
  have hdefault : ∀ l : String, l ≠ "POSITIVE" → l ≠ "NEGATIVE" → l ≠ "NEUTRAL" →
      emojiFor l = "😐" := by
    intro l h1 h2 h3
    have e1 : (l == "POSITIVE") = false := beq_eq_false_iff_ne.mpr h1
    have e2 : (l == "NEGATIVE") = false := beq_eq_false_iff_ne.mpr h2
    have e3 : (l == "NEUTRAL") = false := beq_eq_false_iff_ne.mpr h3
    simp [emojiFor, sentiment_emoji, List.lookup, e1, e2, e3]
  refine ⟨?_, rfl, rfl, rfl, hdefault label, ?_⟩
  · by_cases h1 : label = "POSITIVE"
    · subst h1; left; rfl
    · by_cases h2 : label = "NEGATIVE"
      · subst h2; right; left; rfl
      · by_cases h3 : label = "NEUTRAL"
        · subst h3; right; right; rfl
        · right; right; exact hdefault label h1 h2 h3
  · intro model t ht
    simp [analyze_sentiment, ht, SentimentResponse.emoji?]

/-- Concrete instance of claim C9: a label outside the mapping degrades to
the neutral emoji. -/
theorem c9_witness :
    ("weird" : String) ≠ "POSITIVE" ∧ ("weird" : String) ≠ "NEGATIVE" ∧
    ("weird" : String) ≠ "NEUTRAL" ∧ emojiFor "weird" = "😐" :=
  ⟨by decide, by decide, by decide,
   (c9_emoji_total "weird").2.2.2.2.1 (by decide) (by decide) (by decide)⟩

/-- Claim C10 (confirmed): for non-empty text the text_length field is the
length of the full original input, not of the 512-character slice the
model saw. -/
theorem c10_text_length (model : String → ScoreResult) (t : String) (h : t ≠ "") :
    (moderate_content model (some t)).1.textLength? = some t.length := by
  simp [moderate_content, h, ModerateResponse.textLength?]

/-- Concrete instance of claim C10: a 600-character input reports length
600, exceeding the 512 characters that influenced the score. -/
theorem c10_witness :
    long600 ≠ "" ∧
    (moderate_content lenModel (some long600)).1.textLength? = some long600.length ∧
    512 < long600.length :=
  ⟨by decide, c10_text_length lenModel long600 (by decide), by decide⟩
